import Mathlib

/-!
Verification development for the `lewicki` actor-model runtime
(`src/lewicki/messages.py`, `src/lewicki/actors/__init__.py`,
`src/lewicki/actors/pool.py`).

The embedding is shallow: Python dicts become insertion-ordered
association lists, `multiprocessing.Queue` mailboxes become explicit
message lists, and fallible Python statements (attribute lookups,
keyword binding at constructor call sites, `next` on an exhausted
iterator, dict indexing) become `Except PyErr` computations.
Identifier generation (`str(uuid.uuid4().time_low)`) is modelled by
threading the drawn 128-bit UUID integers explicitly and truncating
them exactly as `UUID.time_low` does; the enclosing `str(...)` is an
injective rendering and is dropped, so ids are `Nat`s.
-/

namespace Lewicki

/-- Runtime faults raised by the embedded Python statements:
`TypeError` (unknown keyword argument / calling a non-callable),
`AttributeError` (attribute not among `__slots__`), `KeyError`
(missing dict key), `IndexError` (list index out of range), and
`StopIteration` (from `next` on an exhausted iterator). -/
inductive PyErr where
  | typeError : String → PyErr
  | attributeError : String → PyErr
  | keyError : String → PyErr
  | indexError : Nat → PyErr
  | stopIteration : PyErr
deriving DecidableEq, Repr

/-- `MessageKind` enum from `lewicki/messages.py` lines 5-20. -/
inductive MessageKind where
  | DEFAULT
  | CALL
  | RETURN
  | ACK
  | SET
deriving DecidableEq, BEq, Repr

/-- A Python value as stored in an actor's `attrs` dict or carried in a
`SET` payload's `value` field.  The pool stores the mapped callable
under `'_func'` and the worker stop flag under `'_stop'`, so the value
domain needs opaque payload data (`base`), booleans (`bool`) and
callables (`fn`).  A callable takes the positional-argument list and
the keyword-argument pairs, exactly the shape `method(*args, **kwargs)`
supplies at `actors/__init__.py` line 122. -/
inductive Val (α : Type) where
  | base : α → Val α
  | bool : Bool → Val α
  | fn : (List α → List (String × α) → α) → Val α

/-- The `data` field of a `Message`.  Per the `MessageKind` docstring
(`messages.py` lines 8-14): a CALL payload is a dict
`{'name': <method_name>, ['args': <args>], ['kwargs': <kwargs>], ['return': True]}`
(optional keys modelled by `Option`), a SET payload is a dict
`{'name': <variable_name>, 'value': <value>}`, and DEFAULT/RETURN
payloads are arbitrary data (`raw`). -/
inductive MsgData (α : Type) where
  | raw : α → MsgData α
  | callData : String → Option (List α) → Option (List (String × α)) → Option Bool → MsgData α
  | setData : String → Val α → MsgData α

/-- `Message` from `lewicki/messages.py` lines 22-40, with
`__slots__ = ('id', 'previous_id', 'sender', 'receiver', 'kind', 'data')`.
`id` is the (numeric reading of the) truncated UUID draw assigned at
construction; `receiver` is typed `Option String` because call sites
forward `msg.sender`, which is itself optional. -/
structure Message (α : Type) where
  id : Nat
  previous_id : Option Nat
  sender : Option String
  receiver : Option String
  kind : MessageKind
  data : MsgData α

/-- `uuid.UUID.time_low` of a 128-bit UUID integer `u`: its top 32 bits,
`(u >> 96) & 0xffffffff`.  `Message.__init__` line 38 sets
`self.id = str(uuid.uuid4().time_low)`; `str` is injective on naturals
and is dropped from the model. -/
def uuidTimeLow (u : Nat) : Nat := (u / 2 ^ 96) % 2 ^ 32

/-- `Message.__init__` (`messages.py` lines 26-40) given the UUID draw
`u` consumed by this construction: stores the payload and addressing
fields and assigns `id := time_low of the draw`. -/
def mkMessage (u : Nat) (data : MsgData α) (receiver sender : Option String)
    (kind : MessageKind) (previous_id : Option Nat) : Message α :=
  { id := uuidTimeLow u, previous_id := previous_id, sender := sender,
    receiver := receiver, kind := kind, data := data }

/-- The keyword parameter names `Message.__init__` declares
(`messages.py` lines 26-33): `receiver`, `sender`, `kind`,
`previous_id`.  Python binds keyword arguments by name; a call site
passing any other keyword name raises `TypeError` before the
constructor body runs. -/
def messageInitAccepts (kw : String) : Bool :=
  kw == "receiver" || kw == "sender" || kw == "kind" || kw == "previous_id"

/-- A `Message(...)` call site: `kwNames` lists the keyword names
written at the site in source order.  If every one is a declared
parameter of `Message.__init__` the message is constructed, otherwise
Python's keyword binding raises `TypeError` naming the first unexpected
keyword. -/
def mkMessageChecked (kwNames : List String) (u : Nat) (data : MsgData α)
    (receiver sender : Option String) (kind : MessageKind)
    (previous_id : Option Nat) : Except PyErr (Message α) :=
  match kwNames.find? (fun n => !(messageInitAccepts n)) with
  | some bad => .error (.typeError bad)
  | none => .ok (mkMessage u data receiver sender kind previous_id)

/-- Python attribute access `m.<attr>` on a `Message`, restricted to
the id-valued attributes the code reads for correlation.  Because
`Message` declares `__slots__`, reading any name outside
`('id', 'previous_id', 'sender', 'receiver', 'kind', 'data')` raises
`AttributeError`.  In particular `prev_id` is not a slot. -/
def Message.getIdAttr (m : Message α) (attr : String) : Except PyErr (Option Nat) :=
  if attr = "id" then .ok (some m.id)
  else if attr = "previous_id" then .ok m.previous_id
  else .error (.attributeError attr)

/-- Lookup in an insertion-ordered association list, the model of a
Python dict read `d[k]` / `d.get(k)`. -/
def dlookup [DecidableEq κ] : List (κ × β) → κ → Option β
  | [], _ => none
  | (k, v) :: r, key => if k = key then some v else dlookup r key

/-- Python dict write `d[k] = v`: replaces in place if the key is
present (keeping its position), otherwise appends. -/
def dupdate [DecidableEq κ] : List (κ × β) → κ → β → List (κ × β)
  | [], key, val => [(key, val)]
  | (k, v) :: r, key, val =>
      if k = key then (k, val) :: r else (k, v) :: dupdate r key val

/-- Python `del d[k]` on a dict whose key is present: drops the entry. -/
def dremove [DecidableEq κ] : List (κ × β) → κ → List (κ × β)
  | [], _ => []
  | (k, v) :: r, key => if k = key then r else (k, v) :: dremove r key

/-- Python dict key insertion as performed by
`outbox.update((a.name, a.inbox) ...)`, tracking keys only (the values
are opaque queue handles): inserting a present key leaves the key list
unchanged, a new key is appended. -/
def dinsertKey (d : List String) (k : String) : List String :=
  if k ∈ d then d else d ++ [k]

/-- Truthiness of `msg.sender` in `if msg.sender and ...`
(`actors/__init__.py` line 125): `None` and the empty string are
falsy. -/
def senderTruthy : Option String → Bool
  | none => false
  | some s => !(s == "")

/-- `data.get('return', True)` truthiness (`actors/__init__.py`
line 125) on a CALL payload. -/
def wantReturn : MsgData α → Bool
  | .callData _ _ _ r => r.getD true
  | _ => true

/-- Mutable state of a `MessageActor` (`actors/__init__.py` lines
74-96): its `name` and its `attrs` dict. -/
structure ActorState (α : Type) where
  name : String
  attrs : List (String × Val α)

/-- Lines 118-122 of `MessageActor.handle_call`:
`method = self.attrs[data['name']]` (missing key raises `KeyError`),
`args = data.get('args', ())`, `kwargs = data.get('kwargs', {})`,
`return_data = method(*args, **kwargs)`.  Calling a non-callable
attribute raises `TypeError`; payloads that are not dicts with a
`'name'` key raise before resolution. -/
def callInvoke (attrs : List (String × Val α)) (d : MsgData α) : Except PyErr α :=
  match d with
  | .callData nm ao ko _ =>
    match dlookup attrs nm with
    | none => .error (.keyError nm)
    | some (.fn f) => .ok (f (ao.getD []) (ko.getD []))
    | some _ => .error (.typeError nm)
  | _ => .error (.typeError "CALL payload")

/-- `MessageActor.handle_call` (`actors/__init__.py` lines 115-132).
After the invocation, if `msg.sender` is truthy and
`data.get('return', True)` holds, the code builds the reply with
`Message(return_data, sender=self.name, receiver=msg.sender,
kind=MessageKind.RETURN, prev_id=msg.id)` — note the keyword name
`prev_id`, which `Message.__init__` does not declare (its parameter is
`previous_id`), so that call site is checked against the constructor's
keyword list.  The messages produced are handed to `self.send`
(transport to the named receiver's mailbox is treated as opaque). -/
def handle_call (u : Nat) (st : ActorState α) (msg : Message α) :
    Except PyErr (List (Message α)) :=
  match callInvoke st.attrs msg.data with
  | .error e => .error e
  | .ok return_data =>
    if senderTruthy msg.sender && wantReturn msg.data then
      match mkMessageChecked ["sender", "receiver", "kind", "prev_id"] u
          (.raw return_data) msg.sender (some st.name) .RETURN (some msg.id) with
      | .error e => .error e
      | .ok rm => .ok [rm]
    else
      .ok []

/-- `MessageActor.handle_set` (`actors/__init__.py` lines 147-150):
`self.attrs[data['name']] = data['value']`; a payload that is not a
`{'name', 'value'}` dict raises. -/
def handle_set (st : ActorState α) (msg : Message α) : Except PyErr (ActorState α) :=
  match msg.data with
  | .setData n v => .ok { st with attrs := dupdate st.attrs n v }
  | _ => .error (.typeError "SET payload")

/-- Truthiness of an attribute value, needed because
`MapActor.should_stop` returns `self.attrs['_stop']` and the run loop
tests its truth.  The `'_stop'` slot only ever holds booleans (`False`
at construction, `True` via the coordinator's SET); opaque payloads and
callables are truthy like generic Python objects. -/
def valTruthy : Val α → Bool
  | .bool b => b
  | .base _ => true
  | .fn _ => true

/-- `MapActor.should_stop` (`actors/pool.py` lines 30-31):
`return self.attrs['_stop']`; a missing key raises `KeyError`
(the constructor at lines 26-28 initialises it to `False`). -/
def mapActorShouldStop (st : ActorState α) : Except PyErr Bool :=
  match dlookup st.attrs "_stop" with
  | some v => .ok (valTruthy v)
  | none => .error (.keyError "_stop")

/-- One iteration body of `MessageActor.run` (`actors/__init__.py`
lines 98-113) specialised to a `MapActor`: `should_ignore` always
returns `False` (lines 152-154) so no message is dropped; DEFAULT goes
to `MapActor.on_next` (pass, `pool.py` lines 33-35), CALL to
`handle_call`, RETURN to the default `handle_return` (pass, lines
139-141), ACK to the default `handle_ack` (pass, lines 143-145), SET to
`handle_set`.  Returns the updated state and the messages sent. -/
def workerStep (u : Nat) (st : ActorState α) (m : Message α) :
    Except PyErr (ActorState α × List (Message α)) :=
  match m.kind with
  | .DEFAULT => .ok (st, [])
  | .CALL =>
    match handle_call u st m with
    | .error e => .error e
    | .ok out => .ok (st, out)
  | .RETURN => .ok (st, [])
  | .ACK => .ok (st, [])
  | .SET =>
    match handle_set st m with
    | .error e => .error e
    | .ok st2 => .ok (st2, [])

/-- Result of running a `MapActor`'s receive/dispatch loop against the
finite list of messages delivered to its mailbox: the loop exits via
`should_stop` (leftover messages stay buffered), blocks forever in
`receive` once the list is exhausted, or crashes when a dispatched
statement raises.  Each constructor carries the final state and the
messages sent before that point. -/
inductive WorkerOutcome (α : Type) where
  | stopped : ActorState α → List (Message α) → List (Message α) → WorkerOutcome α
  | blocked : ActorState α → List (Message α) → WorkerOutcome α
  | crashed : PyErr → ActorState α → List (Message α) → WorkerOutcome α

/-- `MapActor`'s run loop (`BaseActor.run` via `MessageActor.run`,
`actors/__init__.py` lines 98-113): `while not self.should_stop():
dispatch(self.receive())`, with `ids` the stream of UUID draws
consumed (position `k` onward) by any message constructions the
dispatch performs. -/
def workerRun (ids : Nat → Nat) : Nat → ActorState α → List (Message α) → WorkerOutcome α
  | _, st, [] =>
    match mapActorShouldStop st with
    | .error e => .crashed e st []
    | .ok true => .stopped st [] []
    | .ok false => .blocked st []
  | k, st, m :: rest =>
    match mapActorShouldStop st with
    | .error e => .crashed e st []
    | .ok true => .stopped st [] (m :: rest)
    | .ok false =>
      match workerStep (ids k) st m with
      | .error e => .crashed e st []
      | .ok (st2, out) =>
        match workerRun ids (k + 1) st2 rest with
        | .stopped s3 sent left => .stopped s3 (out ++ sent) left
        | .blocked s3 sent => .blocked s3 (out ++ sent)
        | .crashed e s3 sent => .crashed e s3 (out ++ sent)

/-- The error a worker run ended with, if it crashed. -/
def workerOutcomeErr : WorkerOutcome α → Option PyErr
  | .crashed e _ _ => some e
  | _ => none

/-- All messages a worker run sent before it ended. -/
def workerOutcomeSent : WorkerOutcome α → List (Message α)
  | .stopped _ s _ => s
  | .blocked _ s => s
  | .crashed _ _ s => s

/-- Coordinator state, the slots of `MapActorSystem`
(`actors/pool.py` lines 41-50): the coordinator's `name`, the mapped
callable `func`, the not-yet-consumed part of
`iter(enumerate(iterable))`, `remaining_items`, the in-flight
correlation dict `result_map : call id → original index`, and the
result slot list initialised to `[None] * len(iterable)`.  A result
slot stores the raw `msg.data` object the RETURN carried. -/
structure PoolState (α : Type) where
  name : String
  func : List α → List (String × α) → α
  iterable : List (Nat × α)
  remaining_items : Nat
  result_map : List (Nat × Nat)
  result : List (Option (MsgData α))

/-- `MapActorSystem.__init__` (`actors/pool.py` lines 44-50). -/
def poolInit (name : String) (func : List α → List (String × α) → α)
    (xs : List α) : PoolState α :=
  { name := name, func := func, iterable := xs.enum,
    remaining_items := xs.length,
    result_map := [], result := List.replicate xs.length none }

/-- The bootstrap loop of `MapActorSystem.run` (`actors/pool.py` lines
55-76): for each actor name in the coordinator's outbox (insertion
order = connection order), construct
`msg1 = Message({'name': '_func', 'value': self.func}, receiver=actor, kind=SET)`,
pull `(idx, value) = next(self.iterable)` (raising `StopIteration` if
exhausted, which cannot happen in `ActorPool.map` since the worker
count is `min(len(iterable), processes)`), construct
`msg2 = Message({'name': '_func', 'args': [value]}, sender=self.name, receiver=actor, kind=CALL)`,
send both, and record `result_map[msg2.id] = idx`.  `ids` is the UUID
draw stream, consumed two per worker from position `k`.  Returns the
updated coordinator state and every message sent, in send order. -/
def bootstrap (ids : Nat → Nat) : Nat → PoolState α → List String →
    Except PyErr (PoolState α × List (Message α))
  | _, st, [] => .ok (st, [])
  | k, st, w :: ws =>
    match mkMessageChecked ["receiver", "kind"] (ids k)
        (.setData "_func" (.fn st.func)) (some w) none .SET none with
    | .error e => .error e
    | .ok msg1 =>
      match st.iterable with
      | [] => .error .stopIteration
      | (idx, value) :: rest =>
        match mkMessageChecked ["sender", "receiver", "kind"] (ids (k + 1))
            (.callData "_func" (some [value]) none none) (some w)
            (some st.name) .CALL none with
        | .error e => .error e
        | .ok msg2 =>
          match bootstrap ids (k + 2)
              { st with iterable := rest,
                        result_map := dupdate st.result_map msg2.id idx } ws with
          | .error e => .error e
          | .ok (st2, msgs) => .ok (st2, msg1 :: msg2 :: msgs)

/-- Lines 85-103 of `MapActorSystem.handle_return`, parameterised by
the correlation id `pid` its first statement was meant to produce:
`value_idx = self.result_map[id]` (missing key raises `KeyError`),
`del self.result_map[id]`, `self.result[value_idx] = msg.data`
(out-of-range index raises `IndexError`), `self.remaining_items -= 1`;
then `try: idx, value = next(self.iterable)` and on success send a new
CALL for `'_func'` with `args=[value]` back to `msg.sender`, recording
`result_map[new id] = idx`; on `StopIteration` instead send
`Message({'name': '_stop', 'value': True}, receiver=msg.sender, kind=SET)`.
`u` is the UUID draw consumed by the one message constructed. -/
def handleReturnBody (u : Nat) (st : PoolState α) (msg : Message α) (pid : Nat) :
    Except PyErr (PoolState α × Message α) :=
  match dlookup st.result_map pid with
  | none => .error (.keyError (toString pid))
  | some value_idx =>
    if value_idx < st.result.length then
      let st2 : PoolState α :=
        { st with result_map := dremove st.result_map pid,
                  result := st.result.set value_idx (some msg.data),
                  remaining_items := st.remaining_items - 1 }
      match st2.iterable with
      | (idx, value) :: rest =>
        match mkMessageChecked ["sender", "receiver", "kind"] u
            (.callData "_func" (some [value]) none none) msg.sender
            (some st.name) .CALL none with
        | .error e => .error e
        | .ok m =>
          .ok ({ st2 with iterable := rest,
                          result_map := dupdate st2.result_map m.id idx }, m)
      | [] =>
        match mkMessageChecked ["receiver", "kind"] u
            (.setData "_stop" (.bool true)) msg.sender none .SET none with
        | .error e => .error e
        | .ok m => .ok (st2, m)
    else .error (.indexError value_idx)

/-- `MapActorSystem.handle_return` (`actors/pool.py` lines 81-104).
Its first statement is `id = msg.prev_id`; `prev_id` is not among
`Message.__slots__` (the slot is `previous_id`), so the attribute
lookup is dispatched through `Message.getIdAttr`.  A `None` correlation
id would fall through to the dict lookup `result_map[None]` and raise
`KeyError`. -/
def mapSystemHandleReturn (u : Nat) (st : PoolState α) (msg : Message α) :
    Except PyErr (PoolState α × Message α) :=
  match Message.getIdAttr msg "prev_id" with
  | .error e => .error e
  | .ok (some pid) => handleReturnBody u st msg pid
  | .ok none => .error (.keyError "None")

/-- The ids of CALL messages among `sent` addressed to worker `w` —
the outstanding-call ownership used to read the
single-outstanding-call-per-worker invariant off `result_map`. -/
def sentCallIdsTo (sent : List (Message α)) (w : String) : List Nat :=
  (sent.filter (fun m => m.kind == MessageKind.CALL && m.receiver == some w)).map
    (fun m => m.id)

/-- Number of `result_map` entries whose call id was addressed to
worker `w`: the in-flight count of `w`. -/
def inflightPerWorker (sent : List (Message α)) (rm : List (Nat × Nat))
    (w : String) : Nat :=
  (rm.filter (fun e => (sentCallIdsTo sent w).contains e.1)).length

/-- An actor as seen by the wiring code: its `name` and the key list of
its `outbox` dict (`BaseActor.__init__`, `actors/__init__.py` lines
22-29, starts it empty; the dict's values are live queue handles,
opaque here). -/
structure ActorNode where
  name : String
  outbox : List String
deriving DecidableEq, Repr

/-- A topology manager as seen by the wiring code: `name`, its own
`outbox` key list, the managed-member name list `actors`, and the key
list of the `_actors` dict mapping member name to its (not yet started)
`Process` handle. -/
structure SystemNode where
  name : String
  outbox : List String
  actors : List String
  procs : List String
deriving DecidableEq, Repr

/-- `BaseActor.connect` (`actors/__init__.py` lines 60-62):
`self.outbox.update((a.name, a.inbox) for a in actors)`. -/
def actorConnect (a : ActorNode) (peers : List String) : ActorNode :=
  { a with outbox := peers.foldl dinsertKey a.outbox }

/-- The body of `BaseActorSystem._make_complete` /
`MessageActorSystem._make_complete` (`actors/__init__.py` lines 184-188
and 230-234) processes `itertools.combinations(actors, r=2)` in
lexicographic order: all pairs headed by the first actor, then the
combinations of the rest.  `connectHead` performs the first block —
`for a2 in rest: a1.connect(a2); a2.connect(a1)` — returning the
updated head and rest. -/
def connectHead (a : ActorNode) (rest : List ActorNode) : ActorNode × List ActorNode :=
  ({ a with outbox := (rest.map ActorNode.name).foldl dinsertKey a.outbox },
   rest.map (fun r => { r with outbox := dinsertKey r.outbox a.name }))

/-- `_make_complete(*actors)`: full-mesh wiring of the batch. -/
def makeComplete : List ActorNode → List ActorNode
  | [] => []
  | a :: rest =>
    (connectHead a rest).1 :: makeComplete (connectHead a rest).2
termination_by l => l.length
decreasing_by simp [connectHead]

/-- `BaseActorSystem.connect` / `MessageActorSystem.connect`
(`actors/__init__.py` lines 173-188 and 219-234; the two bodies are
identical): `super().connect(*actors)` extends the manager's outbox,
`self.actors.extend(actors)`, `self._actors.update((a.name,
Process(target=a.run)) for a in actors)` registers one (unstarted)
execution handle per member name, then `for a in actors:
a.connect(self)` wires each member back to the manager, and — when
`complete` — `_make_complete(*actors)` meshes the batch. -/
def systemConnect (complete : Bool) (sys : SystemNode) (acts : List ActorNode) :
    SystemNode × List ActorNode :=
  let sys2 : SystemNode :=
    { sys with outbox := (acts.map ActorNode.name).foldl dinsertKey sys.outbox,
               actors := sys.actors ++ acts.map ActorNode.name,
               procs := (acts.map ActorNode.name).foldl dinsertKey sys.procs }
  let acts2 := acts.map (fun a => { a with outbox := dinsertKey a.outbox sys.name })
  if complete then (sys2, makeComplete acts2) else (sys2, acts2)

/-- `MapActorSystem.connect` (`actors/pool.py` lines 52-53):
`super().connect(*actors, complete=False)` — the star topology used by
the worker pool. -/
def mapSystemConnect (sys : SystemNode) (acts : List ActorNode) :
    SystemNode × List ActorNode :=
  systemConnect false sys acts

/-- A fresh `MapActor` with the given generated name:
`BaseActor.__init__` gives it an empty outbox, `MessageActor.__init__`
an empty `attrs` dict, and `MapActor.__init__` (`actors/pool.py` lines
26-28) sets `attrs['_stop'] = False`. -/
def freshMapActorState (n : String) : ActorState α :=
  { name := n, attrs := [("_stop", Val.bool false)] }

/-- The wiring performed inside `ActorPool.map` (`actors/pool.py` lines
15-20): `num_actors = min(len(iterable), self.processes)`, that many
fresh `MapActor`s (their generated names supplied as `names`), and
`MapActorSystem.connect` on the fresh coordinator. -/
def actorPoolWire (P : Nat) (xs : List α) (sysName : String)
    (names : List String) : SystemNode × List ActorNode :=
  mapSystemConnect { name := sysName, outbox := [], actors := [], procs := [] }
    ((names.take (min xs.length P)).map (fun n => { name := n, outbox := [] }))

/-- The `_actors` keys after `ActorPool.map`'s wiring — `run()`
(`actors/__init__.py` lines 236-242) then calls `a.start()` on each of
these handles, before the coordinator enters its own receive loop and
before any worker dispatches anything. -/
def actorPoolStartedProcs (P : Nat) (xs : List α) (names : List String) :
    List String :=
  (actorPoolWire P xs "sys" names).1.procs

/-- `BaseActorSystem.should_stop` (`actors/__init__.py` lines 202-204):
`return True`. -/
def baseActorSystemShouldStop : Bool := true

/-- `MessageActorSystem.should_stop` (`actors/__init__.py` lines
248-250): `return True`. -/
def messageActorSystemShouldStop : Bool := true

/-- Events of a topology manager's `run()`: starting a member process,
consuming one message from the manager's own inbox, joining a member
process. -/
inductive SysEvent where
  | start : String → SysEvent
  | consume : SysEvent
  | join : String → SysEvent
deriving DecidableEq, Repr

/-- The manager's own receive/dispatch loop, `while not
self.should_stop(): self.on_next(self.receive())` (`BaseActor.run`,
lines 45-49, and the equivalent `MessageActor.run` loop head, lines
98-101): with the given stop answer, either zero iterations run, or
the loop consumes the delivered messages one per iteration and, once
the mailbox list is exhausted with the stop answer still false, blocks
forever in `receive` (`none`). -/
def runLoopEvents (stop : Bool) : List β → Option (List SysEvent)
  | [] => if stop then some [] else none
  | _ :: rest =>
    if stop then some []
    else (runLoopEvents stop rest).map (fun evs => SysEvent.consume :: evs)

/-- `BaseActorSystem.run` / `MessageActorSystem.run`
(`actors/__init__.py` lines 190-196 and 236-242): start every managed
process, run the manager's own loop inline, then join every managed
process.  Returns `none` when the inline loop never exits. -/
def systemRun (stop : Bool) (procs : List String) (inbox : List β) :
    Option (List SysEvent) :=
  match runLoopEvents stop inbox with
  | none => none
  | some evs =>
    some ((procs.map SysEvent.start) ++ evs ++ (procs.map SysEvent.join))

/-- `add_one` from `examples/pool.py` (`def add_one(v): return v + 1`)
as invoked by the worker: `method(*args, **kwargs)` with
`args = [value]`. -/
def addOneFn : List Nat → List (String × Nat) → Nat :=
  fun args _ => args.headD 0 + 1

/-- Concrete UUID-draw stream for the `ActorPool(1).map(add_one, [1])`
run: draw `k` is the 128-bit integer with `time_low = 1000 + k`. -/
def c1Ids : Nat → Nat := fun k => (1000 + k) * 2 ^ 96

/-- Coordinator bootstrap of `ActorPool(1).map(add_one, [1])`:
`num_actors = min(1, 1) = 1` worker, here named `w0`. -/
def c1Boot : Except PyErr (PoolState Nat × List (Message Nat)) :=
  bootstrap c1Ids 0 (poolInit "sys" addOneFn [1]) ["w0"]

/-- All bootstrap messages delivered to worker `w0`'s mailbox, in send
order (FIFO per sender/receiver pair). -/
def c1WorkerInbox : List (Message Nat) :=
  match c1Boot with
  | .ok (_, msgs) => msgs.filter (fun m => m.receiver == some "w0")
  | .error _ => []

/-- Worker `w0`'s run against its bootstrap mailbox. -/
def c1Run : WorkerOutcome Nat :=
  workerRun c1Ids 100 (freshMapActorState "w0") c1WorkerInbox

/-- Concrete UUID-draw stream for the `ActorPool(2).map(add_one,
[10, 20, 30])` bootstrap: draw `k` has `time_low = 100 + k`. -/
def c5Ids : Nat → Nat := fun k => (100 + k) * 2 ^ 96

/-- Coordinator bootstrap of `ActorPool(2).map(add_one, [10, 20, 30])`
with the two workers named `w1`, `w2`. -/
def c5Boot : Except PyErr (PoolState Nat × List (Message Nat)) :=
  bootstrap c5Ids 0 (poolInit "sys" addOneFn [10, 20, 30]) ["w1", "w2"]

/-- In-flight entries owned by each of the two workers after the
bootstrap. -/
def c5Counts : Option (Nat × Nat) :=
  match c5Boot with
  | .ok (st, sent) =>
    some (inflightPerWorker sent st.result_map "w1",
          inflightPerWorker sent st.result_map "w2")
  | .error _ => none

/-- The RETURN envelope worker `w1` would send for its first item
(payload `add_one(10) = 11`, correlation id = the bootstrap CALL's id
`101`) — the input on which `MapActorSystem.handle_return` is
evaluated. -/
def c5Ret : Message Nat :=
  mkMessage (300 * 2 ^ 96) (.raw 11) (some "sys") (some "w1") .RETURN (some 101)

/-- `handle_return` applied to the post-bootstrap coordinator state and
`c5Ret`. -/
def c5AfterReturn : Except PyErr (PoolState Nat × Message Nat) :=
  match c5Boot with
  | .ok (st, _) => mapSystemHandleReturn (301 * 2 ^ 96) st c5Ret
  | .error e => .error e

/-- A receiver state whose attribute store binds operation `f`, for
exercising `handle_call` argument shapes. -/
def c8St : ActorState Nat :=
  { name := "a", attrs := [("f", Val.fn (fun args _ => args.headD 0))] }

/-- A CALL message for `f` with both `'args'` and `'kwargs'` keys
absent and a (truthy) sender present. -/
def c8Msg : Message Nat :=
  mkMessage (7 * 2 ^ 96) (.callData "f" none none none) (some "a") (some "sys")
    .CALL none

/-- A worker state whose attribute store binds `'_func'` (as installed
by the coordinator's bootstrap SET). -/
def c3St : ActorState Nat :=
  { name := "w0", attrs := [("_func", Val.fn addOneFn)] }

/-- The bootstrap CALL `{'name': '_func', 'args': [1]}` from sender
`sys` to worker `w0`. -/
def c3Msg : Message Nat :=
  mkMessage (9 * 2 ^ 96) (.callData "_func" (some [1]) none none) (some "w0")
    (some "sys") .CALL none

/-- Folding Python-dict key insertion over pairwise-fresh new keys
appends them in order. -/
theorem foldl_dinsertKey_fresh :
    ∀ (ns : List String) (acc : List String), ns.Nodup →
      (∀ x ∈ ns, x ∉ acc) → ns.foldl dinsertKey acc = acc ++ ns := by
  intro ns
  induction ns with
  | nil => intro acc _ _; simp
  | cons n rest ih =>
    intro acc hnd hf
    have hn : n ∉ acc := hf n (List.mem_cons_self n rest)
    have h1 : dinsertKey acc n = acc ++ [n] := by simp [dinsertKey, hn]
    have hf2 : ∀ x ∈ rest, x ∉ acc ++ [n] := by
      intro x hx
      simp only [List.mem_append, List.mem_singleton]
      rintro (hxa | hxn)
      · exact hf x (List.mem_cons_of_mem _ hx) hxa
      · exact (List.nodup_cons.mp hnd).1 (hxn ▸ hx)
    calc (n :: rest).foldl dinsertKey acc
        = rest.foldl dinsertKey (dinsertKey acc n) := by simp [List.foldl_cons]
      _ = rest.foldl dinsertKey (acc ++ [n]) := by rw [h1]
      _ = (acc ++ [n]) ++ rest := ih (acc ++ [n]) (List.nodup_cons.mp hnd).2 hf2
      _ = acc ++ n :: rest := by simp

/-- Closed form of `_make_complete` on a batch of distinctly named
actors none of whose current outboxes mention any batch member: each
actor's outbox gains exactly the other members' names, in batch
order. -/
theorem makeComplete_map_eq :
    ∀ (ns : List String) (base : String → List String), ns.Nodup →
      (∀ n ∈ ns, ∀ m ∈ ns, m ∉ base n) →
      makeComplete (ns.map (fun n => { name := n, outbox := base n })) =
        ns.map (fun n => { name := n, outbox := base n ++ ns.erase n }) := by
  intro ns
  induction ns with
  | nil => intro base _ _; simp [makeComplete]
  | cons n0 rest ih =>
    intro base hnd hf
    have hn0rest : n0 ∉ rest := (List.nodup_cons.mp hnd).1
    have hndr : rest.Nodup := (List.nodup_cons.mp hnd).2
    have hmapname :
        ((rest.map fun n => ({ name := n, outbox := base n } : ActorNode)).map
          ActorNode.name) = rest := by
      rw [List.map_map]
      exact List.map_id rest
    have hhead :
        ((rest.map fun n => ({ name := n, outbox := base n } : ActorNode)).map
            ActorNode.name).foldl dinsertKey (base n0) = base n0 ++ rest := by
      rw [hmapname]
      exact foldl_dinsertKey_fresh rest (base n0) hndr
        (fun x hx => hf n0 (by simp) x (by simp [hx]))
    have htail :
        (rest.map fun n => ({ name := n, outbox := base n } : ActorNode)).map
            (fun r => { r with outbox := dinsertKey r.outbox n0 }) =
          rest.map (fun n => { name := n, outbox := base n ++ [n0] }) := by
      rw [List.map_map]
      apply List.map_congr_left
      intro n hn
      have hfr : n0 ∉ base n := hf n (by simp [hn]) n0 (by simp)
      simp [dinsertKey, hfr]
    have hfresh2 : ∀ n ∈ rest, ∀ m ∈ rest, m ∉ base n ++ [n0] := by
      intro n hn m hm
      simp only [List.mem_append, List.mem_singleton]
      rintro (h1 | h2)
      · exact hf n (by simp [hn]) m (by simp [hm]) h1
      · exact hn0rest (h2 ▸ hm)
    calc makeComplete ((n0 :: rest).map fun n =>
            ({ name := n, outbox := base n } : ActorNode))
        = (connectHead { name := n0, outbox := base n0 }
              (rest.map fun n => { name := n, outbox := base n })).1 ::
            makeComplete (connectHead { name := n0, outbox := base n0 }
              (rest.map fun n => { name := n, outbox := base n })).2 := by
          simp [makeComplete]
      _ = { name := n0, outbox := base n0 ++ rest } ::
            makeComplete (rest.map (fun n =>
              { name := n, outbox := base n ++ [n0] })) := by
          simp only [connectHead, htail]
          rw [hhead]
      _ = { name := n0, outbox := base n0 ++ rest } ::
            rest.map (fun n =>
              { name := n, outbox := (base n ++ [n0]) ++ rest.erase n }) := by
          rw [ih (fun n => base n ++ [n0]) hndr hfresh2]
      _ = (n0 :: rest).map fun n =>
            { name := n, outbox := base n ++ (n0 :: rest).erase n } := by
          simp only [List.map_cons, List.erase_cons_head]
          congr 1
          apply List.map_congr_left
          intro n hn
          have hne : n0 ≠ n := fun h => hn0rest (h ▸ hn)
          rw [List.erase_cons_tail]
          · simp
          · simpa using hne

/-- Sum of a constant over a list. -/
theorem sum_map_const_nat (l : List String) (c : Nat) :
    (l.map (fun _ => c)).sum = l.length * c := by
  induction l with
  | nil => simp
  | cons a t ih => simp [ih, Nat.succ_mul]; omega

/-- `2 * C(k, 2) = k * (k - 1)` over the naturals. -/
theorem two_mul_choose_two (k : Nat) : 2 * Nat.choose k 2 = k * (k - 1) := by
  rw [Nat.choose_two_right]
  have h2 : 2 ∣ k * (k - 1) := by
    match k with
    | 0 => simp
    | Nat.succ m =>
      have he : Even (m * (m + 1)) := Nat.even_mul_succ_self m
      have : 2 ∣ m * (m + 1) := he.two_dvd
      simpa [Nat.succ_sub_one, Nat.mul_comm] using this
  exact Nat.mul_div_cancel' h2

/-- The `handle_call` reply site, which writes the keyword `prev_id`,
always raises `TypeError`, whatever the other arguments are. -/
theorem mkMessageChecked_prev_id (u : Nat) (d : MsgData α) (r s : Option String)
    (k : MessageKind) (p : Option Nat) :
    mkMessageChecked ["sender", "receiver", "kind", "prev_id"] u d r s k p =
      .error (.typeError "prev_id") := rfl

/-- Extracting the member names back out of freshly built actor
nodes. -/
theorem map_name_mk (ns : List String) (base : String → List String) :
    (ns.map (fun n => ({ name := n, outbox := base n } : ActorNode))).map
      ActorNode.name = ns := by
  rw [List.map_map]
  exact List.map_id ns

/-- Composition form of `map_name_mk`. -/
theorem map_comp_name (ns : List String) (base : String → List String) :
    ns.map (ActorNode.name ∘ fun n => ({ name := n, outbox := base n } : ActorNode)) =
      ns :=
  List.map_id ns

/-- Composing node construction with the back-edge outbox update. -/
theorem map_comp_update (ns : List String) (base : String → List String)
    (m : String) :
    ns.map ((fun a => { a with outbox := dinsertKey a.outbox m }) ∘ fun n =>
        ({ name := n, outbox := base n } : ActorNode)) =
      ns.map (fun n => ({ name := n, outbox := dinsertKey (base n) m } : ActorNode)) :=
  rfl

/-- Components of a star-topology (`complete=False`) connect on a
fresh manager. -/
theorem systemConnect_false_eq (m : String) (ns : List String)
    (base : String → List String) :
    systemConnect false { name := m, outbox := [], actors := [], procs := [] }
        (ns.map (fun n => { name := n, outbox := base n })) =
      ({ name := m, outbox := ns.foldl dinsertKey [],
         actors := ns, procs := ns.foldl dinsertKey [] },
       ns.map (fun n => { name := n, outbox := dinsertKey (base n) m })) := by
  simp [systemConnect, List.map_map, map_comp_name, map_comp_update]

/-- Components of a full-mesh (`complete=True`) connect on a fresh
manager, before `_make_complete`. -/
theorem systemConnect_true_eq (m : String) (ns : List String)
    (base : String → List String) :
    systemConnect true { name := m, outbox := [], actors := [], procs := [] }
        (ns.map (fun n => { name := n, outbox := base n })) =
      ({ name := m, outbox := ns.foldl dinsertKey [],
         actors := ns, procs := ns.foldl dinsertKey [] },
       makeComplete (ns.map (fun n =>
         { name := n, outbox := dinsertKey (base n) m }))) := by
  simp [systemConnect, List.map_map, map_comp_name, map_comp_update]

/-- The star wiring `MapActorSystem.connect` performs on a fresh
coordinator named `m` and fresh workers named `ns`. -/
def starWired (m : String) (ns : List String) : SystemNode × List ActorNode :=
  mapSystemConnect { name := m, outbox := [], actors := [], procs := [] }
    (ns.map (fun n => { name := n, outbox := [] }))

/-- The full-mesh wiring `BaseActorSystem.connect` (default
`complete=True`) performs on a fresh manager named `m` and fresh
actors named `ns`. -/
def meshWired (m : String) (ns : List String) : SystemNode × List ActorNode :=
  systemConnect true { name := m, outbox := [], actors := [], procs := [] }
    (ns.map (fun n => { name := n, outbox := [] }))

/-- C1: the claim says `ActorPool(P).map(f, xs)` returns
`[f(x) for x in xs]` for every `P ≥ 1`.  The code cannot do this for
any non-empty `xs`: in the concrete run `ActorPool(1).map(add_one, [1])`
the single worker, dispatching the bootstrap CALL, reaches
`handle_call`'s reply construction `Message(..., prev_id=msg.id)`;
`Message.__init__` has no `prev_id` parameter, so the worker crashes
with `TypeError` having sent nothing — no RETURN ever reaches the
coordinator, whose `remaining_items` stays positive, so `map` blocks
forever instead of returning `[2]`. -/
theorem c1_map_first_worker_crashes :
    workerOutcomeErr c1Run = some (.typeError "prev_id") ∧
    workerOutcomeSent c1Run = [] :=
  ⟨rfl, rfl⟩

/-- C2: the claim describes `MapActorSystem.handle_return` popping the
in-flight entry, writing the result slot, decrementing `remaining`, and
reassigning work or stopping the worker.  The code's first statement
reads `msg.prev_id`, which is not among `Message.__slots__` (the slot
is `previous_id`), so every invocation of the handler — for every
coordinator state and every message — raises `AttributeError` before
touching any state. -/
theorem c2_handle_return_always_raises {α : Type} (u : Nat) (st : PoolState α)
    (msg : Message α) :
    mapSystemHandleReturn u st msg = .error (.attributeError "prev_id") := rfl

/-- C3: the claim says a CALL whose operation resolves, arriving with a
sender and without a disabling return flag, makes the actor send
exactly one RETURN correlated by `previous_id = CALL id`.  In the code
the invocation succeeds but the reply construction passes the unknown
keyword `prev_id`, so `handle_call` raises `TypeError` and no RETURN
message is ever produced. -/
theorem c3_call_reply_never_constructed {α : Type} (u : Nat) (st : ActorState α)
    (msg : Message α) (nm : String) (f : List α → List (String × α) → α)
    (ao : Option (List α)) (ko : Option (List (String × α))) (ro : Option Bool)
    (hdata : msg.data = .callData nm ao ko ro)
    (hop : dlookup st.attrs nm = some (.fn f))
    (hsender : senderTruthy msg.sender = true)
    (hret : ro.getD true = true) :
    handle_call u st msg = .error (.typeError "prev_id") := by
  simp [handle_call, callInvoke, hdata, hop, wantReturn, hsender, hret,
    mkMessageChecked_prev_id]

/-- Witness for C3 at the bootstrap CALL of the pool run: operation
`'_func'` is bound, the sender `'sys'` is truthy, the return flag is
absent (defaulting to true), and `handle_call` raises. -/
theorem c3_call_reply_never_constructed_witness :
    c3Msg.data = MsgData.callData "_func" (some [1]) none none ∧
    dlookup c3St.attrs "_func" = some (Val.fn addOneFn) ∧
    senderTruthy c3Msg.sender = true ∧
    (none : Option Bool).getD true = true ∧
    handle_call (11 * 2 ^ 96) c3St c3Msg = .error (.typeError "prev_id") :=
  ⟨rfl, rfl, rfl, rfl,
   c3_call_reply_never_constructed (11 * 2 ^ 96) c3St c3Msg "_func" addOneFn
     (some [1]) none none rfl rfl rfl rfl⟩

/-- C4: `ActorPool.map` computes `num_actors = min(len(iterable),
processes)`, builds that many fresh `MapActor`s, and `connect` registers
one `Process` handle per actor in the name-keyed `_actors` dict, each
of which `run()` then starts (before the coordinator enters its own
loop, hence before any worker can crash).  Under pairwise-distinct
generated actor names, exactly `min(len(xs), P)` execution handles are
registered and started. -/
theorem c4_started_worker_count (P : Nat) (xs : List Nat) (names : List String)
    (hnd : names.Nodup) (hlen : min xs.length P ≤ names.length) :
    (actorPoolStartedProcs P xs names).length = min xs.length P := by
  have htake : (names.take (min xs.length P)).Nodup :=
    hnd.sublist (List.take_sublist _ _)
  have heq : actorPoolStartedProcs P xs names = names.take (min xs.length P) := by
    show (systemConnect false _ _).1.procs = _
    rw [systemConnect_false_eq "sys" (names.take (min xs.length P)) (fun _ => [])]
    exact foldl_dinsertKey_fresh _ [] htake (by simp)
  rw [heq, List.length_take]
  exact Nat.min_eq_left hlen

/-- Witness for C4: pool size 2 over a 3-element sequence with two
distinct generated names starts `min(3, 2) = 2` workers. -/
theorem c4_started_worker_count_witness :
    (["a", "b"] : List String).Nodup ∧
    min ([1, 2, 3] : List Nat).length 2 ≤ (["a", "b"] : List String).length ∧
    (actorPoolStartedProcs 2 [1, 2, 3] ["a", "b"]).length =
      min ([1, 2, 3] : List Nat).length 2 :=
  ⟨by decide, by decide,
   c4_started_worker_count 2 [1, 2, 3] ["a", "b"] (by decide) (by decide)⟩

/-- C5: the claim asserts the at-most-one-outstanding-CALL-per-worker
invariant after the bootstrap and after every `handle_return` step.
After the bootstrap of `ActorPool(2).map(add_one, [10, 20, 30])` each
worker owns exactly one `result_map` entry, as claimed; but no
`handle_return` step ever completes: applied to the post-bootstrap
state and the first worker's RETURN, the handler raises
`AttributeError` on `msg.prev_id` (the slot is `previous_id`), so the
post-`handle_return` states the claim quantifies over are never
reached. -/
theorem c5_bootstrap_single_inflight_then_crash :
    c5Counts = some (1, 1) ∧
    c5AfterReturn = .error (.attributeError "prev_id") :=
  ⟨rfl, rfl⟩

/-- C6: after `MapActorSystem.connect` (which passes `complete=False`),
the coordinator's address book holds exactly the workers, in connection
order, and every worker's address book holds exactly the coordinator —
no worker-to-worker edge exists. -/
theorem c6_star_topology (m : String) (ns : List String) (hnd : ns.Nodup) :
    (starWired m ns).1.outbox = ns ∧
    ∀ a ∈ (starWired m ns).2, a.outbox = [m] := by
  have hw : starWired m ns =
      ({ name := m, outbox := ns, actors := ns, procs := ns },
       ns.map (fun n => { name := n, outbox := [m] })) := by
    show systemConnect false _ _ = _
    rw [systemConnect_false_eq m ns (fun _ => [])]
    rw [foldl_dinsertKey_fresh ns [] hnd (by simp)]
    simp [dinsertKey]
  constructor
  · rw [hw]
  · rw [hw]
    intro a ha
    obtain ⟨n, _, rfl⟩ := List.mem_map.mp ha
    rfl

/-- Witness for C6: two workers `a`, `b` behind coordinator `sys`. -/
theorem c6_star_topology_witness :
    (["a", "b"] : List String).Nodup ∧
    ((starWired "sys" ["a", "b"]).1.outbox = ["a", "b"] ∧
     ∀ a ∈ (starWired "sys" ["a", "b"]).2, a.outbox = ["sys"]) :=
  ⟨by decide, c6_star_topology "sys" ["a", "b"] (by decide)⟩

/-- C7: `BaseActorSystem.connect` with full-mesh wiring on k distinctly
named fresh actors gives the manager a k-entry address book (the k
manager-to-member edges), registers k execution handles, and leaves
every member with an address book holding the manager plus all k-1
other members — so every pair of members is mutually connected, every
member is connected to and from the manager, and the member-side
address books hold `k + 2*C(k,2)` edges beyond the manager-to-member
ones. -/
theorem c7_full_mesh_edges (m : String) (ns : List String) (hnd : ns.Nodup)
    (hm : m ∉ ns) :
    (meshWired m ns).1.outbox = ns ∧
    (meshWired m ns).1.procs = ns ∧
    (meshWired m ns).2 = ns.map (fun n => { name := n, outbox := m :: ns.erase n }) ∧
    (∀ a ∈ (meshWired m ns).2, m ∈ a.outbox) ∧
    (∀ a ∈ (meshWired m ns).2, ∀ b ∈ (meshWired m ns).2,
      a.name ≠ b.name → b.name ∈ a.outbox) ∧
    ((meshWired m ns).2.map (fun a => a.outbox.length)).sum =
      ns.length + 2 * Nat.choose ns.length 2 := by
  have hfold : ns.foldl dinsertKey [] = ns :=
    foldl_dinsertKey_fresh ns [] hnd (by simp)
  have hacts : (meshWired m ns).2 =
      ns.map (fun n => { name := n, outbox := m :: ns.erase n }) := by
    show (systemConnect true _ _).2 = _
    rw [systemConnect_true_eq m ns (fun _ => [])]
    have hbase : (ns.map (fun n =>
        ({ name := n, outbox := dinsertKey [] m } : ActorNode))) =
        ns.map (fun n => ({ name := n, outbox := [m] } : ActorNode)) := by
      simp [dinsertKey]
    have hfr : ∀ n ∈ ns, ∀ x ∈ ns, x ∉ ([m] : List String) := by
      intro n _ x hx h
      rw [List.mem_singleton] at h
      exact hm (h ▸ hx)
    rw [hbase, makeComplete_map_eq ns (fun _ => [m]) hnd hfr]
    simp
  refine ⟨?_, ?_, hacts, ?_, ?_, ?_⟩
  · show (systemConnect true _ _).1.outbox = ns
    rw [systemConnect_true_eq m ns (fun _ => [])]
    exact hfold
  · show (systemConnect true _ _).1.procs = ns
    rw [systemConnect_true_eq m ns (fun _ => [])]
    exact hfold
  · rw [hacts]
    intro a ha
    obtain ⟨n, _, rfl⟩ := List.mem_map.mp ha
    exact List.mem_cons_self m _
  · rw [hacts]
    intro a ha b hb hne
    obtain ⟨n, hn, rfl⟩ := List.mem_map.mp ha
    obtain ⟨n2, hn2, rfl⟩ := List.mem_map.mp hb
    have hnn : n2 ≠ n := fun h => hne (by simp [h])
    exact List.mem_cons_of_mem m ((List.mem_erase_of_ne hnn).mpr hn2)
  · rw [hacts, List.map_map]
    have hcongr : ns.map ((fun a => a.outbox.length) ∘ (fun n =>
        ({ name := n, outbox := m :: ns.erase n } : ActorNode))) =
        ns.map (fun _ => ns.length) := by
      apply List.map_congr_left
      intro n hn
      show (ns.erase n).length + 1 = ns.length
      rw [List.length_erase_of_mem hn]
      exact Nat.succ_pred_eq_of_pos (List.length_pos_of_mem hn)
    rw [hcongr, sum_map_const_nat, two_mul_choose_two]
    cases hk : ns.length with
    | zero => rfl
    | succ s => simp [Nat.succ_sub_one]; ring

/-- Witness for C7: three members `a`, `b`, `c` under manager `sys`:
each member ends connected to `sys` and to the two others, and the
member-side edge count is `3 + 2*C(3,2) = 9`. -/
theorem c7_full_mesh_edges_witness :
    (["a", "b", "c"] : List String).Nodup ∧ "sys" ∉ (["a", "b", "c"] : List String) ∧
    ((meshWired "sys" ["a", "b", "c"]).1.outbox = ["a", "b", "c"] ∧
     (meshWired "sys" ["a", "b", "c"]).1.procs = ["a", "b", "c"] ∧
     (meshWired "sys" ["a", "b", "c"]).2 = (["a", "b", "c"] : List String).map
       (fun n => { name := n, outbox := "sys" :: (["a", "b", "c"] : List String).erase n }) ∧
     (∀ a ∈ (meshWired "sys" ["a", "b", "c"]).2, "sys" ∈ a.outbox) ∧
     (∀ a ∈ (meshWired "sys" ["a", "b", "c"]).2,
       ∀ b ∈ (meshWired "sys" ["a", "b", "c"]).2,
         a.name ≠ b.name → b.name ∈ a.outbox) ∧
     ((meshWired "sys" ["a", "b", "c"]).2.map (fun a => a.outbox.length)).sum =
       (["a", "b", "c"] : List String).length +
         2 * Nat.choose (["a", "b", "c"] : List String).length 2) :=
  ⟨by decide, by decide,
   c7_full_mesh_edges "sys" ["a", "b", "c"] (by decide) (by decide)⟩

/-- C8 counterexample: the claim says `handle_call` succeeds for all
four present/absent combinations of `'args'`/`'kwargs'` whenever the
named operation resolves.  With both keys absent but a (truthy) sender
present and the return flag defaulted, `handle_call` fails — not on
argument shape, but because the reply site passes the unknown keyword
`prev_id`. -/
theorem c8_sender_present_combo_fails :
    handle_call (8 * 2 ^ 96) c8St c8Msg = .error (.typeError "prev_id") := rfl

/-- C8 (amended): the argument-extraction step of `handle_call` accepts
all four present/absent combinations of `'args'`/`'kwargs'` (covered by
the two `Option` arguments), invoking the resolved operation with the
empty tuple / empty mapping defaults; and `handle_call` as a whole
succeeds under all four combinations whenever no RETURN is owed (here:
the message carries no sender). -/
theorem c8_arg_shapes_accepted {α : Type} (u u2 : Nat) (st : ActorState α)
    (nm : String) (f : List α → List (String × α) → α)
    (ao : Option (List α)) (ko : Option (List (String × α))) (ro : Option Bool)
    (recv : Option String) (pid : Option Nat)
    (hop : dlookup st.attrs nm = some (.fn f)) :
    callInvoke st.attrs (.callData nm ao ko ro) = .ok (f (ao.getD []) (ko.getD [])) ∧
    handle_call u st (mkMessage u2 (.callData nm ao ko ro) recv none .CALL pid) =
      .ok [] := by
  constructor
  · simp [callInvoke, hop]
  · simp [handle_call, callInvoke, hop, mkMessage, senderTruthy]

/-- Witness for C8's amended statement, at the args-absent/kwargs-absent
combination on a senderless message. -/
theorem c8_arg_shapes_accepted_witness :
    dlookup c8St.attrs "f" = some (Val.fn (fun args _ => args.headD 0)) ∧
    (callInvoke c8St.attrs (.callData "f" none none none) = .ok 0 ∧
     handle_call 3 c8St
       (mkMessage 4 (.callData "f" none none none) (some "a") none .CALL none) =
       .ok []) :=
  ⟨rfl, c8_arg_shapes_accepted 3 4 c8St "f" (fun args _ => args.headD 0)
    none none none (some "a") none rfl⟩

/-- C9 counterexample: ids are `str(uuid.uuid4().time_low)` — only the
top 32 bits of the 128-bit draw survive.  The two distinct UUID draws
`5·2^96` and `5·2^96 + 1` (both with `time_low = 5`) give two messages
in one run the same id, so ids are not guaranteed unique across a
run. -/
theorem c9_truncated_ids_collide :
    (5 * 2 ^ 96 : Nat) ≠ 5 * 2 ^ 96 + 1 ∧
    (mkMessage (5 * 2 ^ 96) (.raw (0 : Nat)) (some "a") none .DEFAULT none).id =
      (mkMessage (5 * 2 ^ 96 + 1) (.raw (1 : Nat)) (some "b") none .DEFAULT
        none).id :=
  ⟨by decide, rfl⟩

/-- C9 (amended): each message's id equals `time_low` of the UUID draw
consumed at its construction, so ids in a run are pairwise distinct
exactly when the draws' `time_low` truncations are — uniqueness is
conditional on the 32-bit truncations never colliding, not
guaranteed. -/
theorem c9_ids_determined_by_time_low (us : List Nat) (d : MsgData Nat)
    (h : (us.map uuidTimeLow).Nodup) :
    (us.map (fun u => (mkMessage u d (some "r") none .DEFAULT none).id)).Nodup ∧
    ∀ u ∈ us, (mkMessage u d (some "r") none .DEFAULT none).id = uuidTimeLow u := by
  constructor
  · simpa [mkMessage] using h
  · intro u _
    rfl

/-- Witness for C9's amended statement on the draws `0` and `2^96`
(with `time_low` values `0` and `1`). -/
theorem c9_ids_determined_by_time_low_witness :
    (([0, 2 ^ 96] : List Nat).map uuidTimeLow).Nodup ∧
    ((([0, 2 ^ 96] : List Nat).map (fun u =>
        (mkMessage u (MsgData.raw 0) (some "r") none .DEFAULT none).id)).Nodup ∧
     ∀ u ∈ ([0, 2 ^ 96] : List Nat),
       (mkMessage u (MsgData.raw 0) (some "r") none .DEFAULT none).id =
         uuidTimeLow u) :=
  ⟨by decide, c9_ids_determined_by_time_low [0, 2 ^ 96] (MsgData.raw 0) (by decide)⟩

/-- C10: `BaseActorSystem.should_stop` and
`MessageActorSystem.should_stop` both return `True` unconditionally, so
a manager that does not override them runs zero iterations of its own
receive/dispatch loop inside `run()`: for every member list and every
mailbox content, the run trace is exactly the member starts followed by
the member joins, with no consume event in between. -/
theorem c10_manager_loop_runs_zero_iterations :
    baseActorSystemShouldStop = true ∧ messageActorSystemShouldStop = true ∧
    ∀ (procs : List String) (inbox : List Nat),
      systemRun baseActorSystemShouldStop procs inbox =
        some ((procs.map SysEvent.start) ++ (procs.map SysEvent.join)) ∧
      systemRun messageActorSystemShouldStop procs inbox =
        some ((procs.map SysEvent.start) ++ (procs.map SysEvent.join)) := by
  refine ⟨rfl, rfl, ?_⟩
  intro procs inbox
  cases inbox <;>
    simp [systemRun, runLoopEvents, baseActorSystemShouldStop,
      messageActorSystemShouldStop]

end Lewicki
